import Mathlib

/-!
Verification development for the WG0X EtherCAT motor-controller driver
(`ethercat_hardware/src/wg0x.cpp`).

Pure computations (checksums, wrap-aware counter deltas, mailbox frame
construction) are embedded directly as Lean functions on `Nat`, with machine
integer widths made explicit via `% 2^w` / `&&& mask` operations, mirroring
the C code byte for byte.  Stateful routines (per-tick safety verification,
command packing, mailbox transactions, diagnostic collection) are embedded as
explicit state-passing functions; external collaborators (the EtherCAT
transport, clocks, locks, the motor model) are represented by result oracles
supplied as arguments, since only their reported outcomes influence the
control flow being verified.

Constants and packed-struct layouts declared in the missing header
`ethercat_hardware/wg0x.h` are modelled from the specification where needed;
each such definition carries a doc comment starting `Modelled from the spec:`.
-/

namespace WG0X

/-- `WG0X::rotateRight8` : 8-bit rotate right by one bit
(`in &= 0xff; in = (in >> 1) | (in << 7); in &= 0xff`). -/
def rotateRight8 (i : Nat) : Nat :=
  let i := i &&& 0xff
  ((i >>> 1) ||| (i <<< 7)) &&& 0xff

/-- `WG0X::computeChecksum` : fold over the buffer bytes, seed `0x42`;
each step rotates the accumulator right one bit, XORs in the byte and
masks to 8 bits. -/
def computeChecksum (data : List Nat) : Nat :=
  data.foldl (fun checksum b => (rotateRight8 checksum ^^^ b) &&& 0xff) 0x42

/-- Appending one byte to a buffer performs one more fold step. -/
theorem computeChecksum_append_single (d : List Nat) (c : Nat) :
    computeChecksum (d ++ [c]) = (rotateRight8 (computeChecksum d) ^^^ c) &&& 0xff := by
  simp [computeChecksum, List.foldl_append]

/-- The frame-builder construction: appending
`rotateRight8 (computeChecksum d)` as the trailing checksum byte makes the
fold over the whole buffer zero. -/
theorem computeChecksum_append_rotate (d : List Nat) :
    computeChecksum (d ++ [rotateRight8 (computeChecksum d)]) = 0 := by
  rw [computeChecksum_append_single, Nat.xor_self, Nat.zero_and]

/-- `MbxCmdType` from the header: mailbox command direction. -/
inductive MbxCmdType where
  | LOCAL_BUS_WRITE
  | LOCAL_BUS_READ
deriving DecidableEq

/-- Modelled from the spec: the mailbox window size.  `wg0x.h` is not in the
repository; per §6, "maximum read payload is mailbox status size minus 1",
and `readMailbox`'s doc comment limits reads at 511 bytes, so `MBX_SIZE = 512`. -/
def MBX_SIZE : Nat := 512

/-- Modelled from the spec: maximum mailbox write payload ("mailbox command
size minus header and checksum overhead", §6); `writeMailbox`'s doc comment
limits writes at 507 bytes. -/
def MBX_DATA_SIZE : Nat := 507

/-- Modelled from the spec: size of the command (write) mailbox window. -/
def MBX_COMMAND_SIZE : Nat := 512

/-- Modelled from the spec: size of the status (read) mailbox window. -/
def MBX_STATUS_SIZE : Nat := 512

/-- `WG0XMbxHdr` : packed mailbox command header.  Field widths are modelled
from the spec (§3 MailboxHeader): a 13-bit local-bus address, a length-minus-1
field in the remaining bits, a sequence number, a write/not-read flag, and a
trailing checksum byte. -/
structure WG0XMbxHdr where
  address_ : Nat
  length_ : Nat
  seqnum_ : Nat
  write_nread_ : Nat
  checksum_ : Nat
deriving DecidableEq

/-- Modelled from the spec: serialization of the header's first
`sizeof(WG0XMbxHdr) - 1` bytes (everything except the trailing checksum byte)
as two little-endian 16-bit words: word 0 holds the 13-bit address, word 1
packs `length-1` (low 12 bits), the sequence number (3 bits) and the
write/not-read flag (top bit).  The exact packing is taken from the spec's
field list; the checksum claims do not depend on it, only on the checksum byte
being last. -/
def WG0XMbxHdr.contentBytes (h : WG0XMbxHdr) : List Nat :=
  [ h.address_ &&& 0xff,
    (h.address_ >>> 8) &&& 0x1f,
    h.length_ &&& 0xff,
    ((h.length_ >>> 8) &&& 0xf) ||| ((h.seqnum_ &&& 0x7) <<< 4) ||| ((h.write_nread_ &&& 0x1) <<< 7) ]

/-- All bytes of the packed header: content bytes then the checksum byte
(`checksum_` is the last field of the packed struct). -/
def WG0XMbxHdr.bytes (h : WG0XMbxHdr) : List Nat :=
  h.contentBytes ++ [h.checksum_]

/-- `WG0XMbxHdr::build` : validates the length against the direction-specific
maximum (write ≤ `MBX_DATA_SIZE`, read ≤ `MBX_SIZE - 1`), fills the fields and
sets `checksum_ = rotateRight8(computeChecksum(this, sizeof(*this) - 1))`.
Returns `none` exactly when the C function returns `false`. -/
def WG0XMbxHdr.build (address length : Nat) (type : MbxCmdType) (seqnum : Nat) :
    Option WG0XMbxHdr :=
  match type with
  | .LOCAL_BUS_WRITE =>
    if length > MBX_DATA_SIZE then none
    else some (buildFields address length seqnum 1)
  | .LOCAL_BUS_READ =>
    if length > MBX_SIZE - 1 then none
    else some (buildFields address length seqnum 0)
where
  buildFields (address length seqnum write_nread : Nat) : WG0XMbxHdr :=
    let hdr0 : WG0XMbxHdr :=
      { address_ := address &&& 0x1fff
        length_ := (length - 1) &&& 0xfff
        seqnum_ := seqnum &&& 0x7
        write_nread_ := write_nread
        checksum_ := 0 }
    { hdr0 with
        checksum_ := rotateRight8 (computeChecksum hdr0.contentBytes) }

/-- `WG0XMbxHdr::verifyChecksum` :
`return WG0X::computeChecksum(this, sizeof(*this)) != 0;` — note the result
is `true` when the fold over the whole header is NONZERO. -/
def WG0XMbxHdr.verifyChecksum (h : WG0XMbxHdr) : Bool :=
  computeChecksum h.bytes != 0

/-- `WG0XMbxCmd` : mailbox command = header followed by the data region.
`data_` here is the used prefix of the C `data_` array: `length` payload bytes
plus the trailing checksum byte written at `data_[length]`. -/
structure WG0XMbxCmd where
  hdr_ : WG0XMbxHdr
  data_ : List Nat
deriving DecidableEq

/-- `WG0XMbxCmd::build` : builds the header, copies `length` bytes of payload
(`memcpy`) or zero-fills (`memset`) when no data pointer is supplied, then
appends `rotateRight8(computeChecksum(data_, length))` at `data_[length]`. -/
def WG0XMbxCmd.build (address length : Nat) (type : MbxCmdType) (seqnum : Nat)
    (data : Option (List Nat)) : Option WG0XMbxCmd :=
  match WG0XMbxHdr.build address length type seqnum with
  | none => none
  | some hdr =>
    let payload : List Nat :=
      match data with
      | some d => d.take length ++ List.replicate (length - d.length) 0
      | none => List.replicate length 0
    some { hdr_ := hdr
           data_ := payload ++ [rotateRight8 (computeChecksum payload)] }

theorem WG0XMbxHdr.build_checksum_bytes (address length : Nat) (type : MbxCmdType)
    (seqnum : Nat) (hdr : WG0XMbxHdr)
    (h : WG0XMbxHdr.build address length type seqnum = some hdr) :
    computeChecksum hdr.bytes = 0 := by
  have hb : ∃ a l s w, hdr = WG0XMbxHdr.build.buildFields a l s w := by
    cases type <;> simp only [WG0XMbxHdr.build] at h <;> split at h <;>
      simp_all <;> exact ⟨address, length, seqnum, _, h.symm⟩
  obtain ⟨a, l, s, w, rfl⟩ := hb
  simp only [WG0XMbxHdr.build.buildFields, WG0XMbxHdr.bytes, WG0XMbxHdr.contentBytes]
  exact computeChecksum_append_rotate _

/-! ## Cycle Codec : command packing, status verification (`packCommand`,
`verifyState`, `clearErrorFlags`) -/

/-- Modelled from the spec: mode-register bit constants from the missing
`wg0x.h`.  `MODE_OFF` is 0 (`modeString` renders a zero mode as "OFF"); the
remaining values are distinct single bits.  The claims depend only on
distinctness and on `MODE_OFF = 0`, not on the exact bit positions. -/
def MODE_OFF : Nat := 0x00

/-- Modelled from the spec: motor-enable mode bit. -/
def MODE_ENABLE : Nat := 0x01

/-- Modelled from the spec: current-control mode bit. -/
def MODE_CURRENT : Nat := 0x02

/-- Modelled from the spec: safety-reset request mode bit. -/
def MODE_SAFETY_RESET : Nat := 0x10

/-- Modelled from the spec: device-reported safety-lockout mode bit. -/
def MODE_SAFETY_LOCKOUT : Nat := 0x20

/-- The fields of `WG0XStatus` that drive `verifyState` : the status mode
byte and the 32-bit device timestamp in microseconds.  The remaining fields
(encoder counts, currents, voltages, temperatures) are floating-point inputs
to telemetry only and are not modelled. -/
structure WG0XStatus where
  mode_ : Nat
  timestamp_ : Nat
deriving DecidableEq

/-- The WG0X device-object state touched by `packCommand` / `verifyState` /
`clearErrorFlags` (constructor-initialized fields of class `WG0X`).
Floating-point members (zero offset, temperature maxima) are omitted; no
claim mentions them. -/
structure WG0XState where
  has_error_ : Bool
  too_many_dropped_packets_ : Bool
  status_checksum_error_ : Bool
  timestamp_jump_detected_ : Bool
  resetting_ : Bool
  in_lockout_ : Bool
  fpga_internal_reset_detected_ : Bool
  halted_ : Bool
  drops_ : Nat
  consecutive_drops_ : Nat
  max_consecutive_drops_ : Nat
  last_timestamp_ : Nat
  last_last_timestamp_ : Nat
deriving DecidableEq

/-- Outcomes of the external motor-model / motor-heating-model collaborators
consulted by `verifyState` (§6: `verify() -> bool` etc.).  Only their boolean
results influence the verification control flow. -/
structure MotorEnv where
  motor_model_present : Bool
  motor_heating_model_present : Bool
  heating_disable_halt_ : Bool
  heating_has_overheated : Bool
  disable_motor_model_checking_ : Bool
  motor_model_verify_ok : Bool
deriving DecidableEq

/-- Which check (one of the `goto end` sites) terminated `verifyState`;
`none` means the routine fell through every guard. -/
inductive VerifyExit where
  | none
  | dropped_packets
  | lockout
  | fpga_reset
  | model_verify
deriving DecidableEq

/-- `WG0X::clearErrorFlags` : clears the four sticky error flags (and resets
the external motor models — a collaborator side effect with no state here). -/
def clearErrorFlags (s : WG0XState) : WG0XState :=
  { s with has_error_ := false
           too_many_dropped_packets_ := false
           status_checksum_error_ := false
           timestamp_jump_detected_ := false }

/-- `WG0X::timestamp_jump` : true if the (32-bit wrapping) timestamp
difference exceeds `amount`, i.e. the timestamp moved forward by more than
`amount` µs or went backwards. -/
def timestamp_jump (timestamp last_timestamp amount : Nat) : Bool :=
  ((timestamp % 2 ^ 32) + 2 ^ 32 - (last_timestamp % 2 ^ 32)) % 2 ^ 32 > amount

/-- The `end:` block of `WG0X::verifyState` : latch `has_error_`
(`has_error_ = is_error || has_error_`) and recompute `halted_`.  The
motor-trace publication in the same block is a collaborator side effect. -/
def verifyStateEnd (s : WG0XState) (this_mode : Nat) (rv : Bool) (e : VerifyExit) :
    WG0XState × Bool × VerifyExit :=
  let has_error := !rv || s.has_error_
  ({ s with has_error_ := has_error
            halted_ := has_error || this_mode == MODE_OFF },
   rv, e)

/-- `WG0X::verifyState` : the per-tick safety-verification gate.  Checks run
in the source's fixed order: motor-heating overheat (sets `rv` but does not
jump), duplicate-timestamp drop counting, timestamp-jump flagging, the
`consecutive_drops_ > 10` failure, safety lockout (when not resetting), FPGA
internal reset, and motor-model verification; the first failing `goto end`
site is reported as the `VerifyExit`.  The sampled telemetry forwarded to the
motor models is floating-point and collaborator-directed, so only the
models' boolean outcomes (`env`) appear here. -/
def verifyState (s : WG0XState) (this_status : WG0XStatus) (env : MotorEnv) :
    WG0XState × Bool × VerifyExit :=
  let rv : Bool :=
    !(env.motor_heating_model_present && !env.heating_disable_halt_ &&
      env.heating_has_overheated)
  let ts := this_status.timestamp_
  let dropCond : Bool := ts == s.last_timestamp_ || ts == s.last_last_timestamp_
  let consecutive := if dropCond then s.consecutive_drops_ + 1 else 0
  let s1 : WG0XState :=
    { s with
        drops_ := if dropCond then s.drops_ + 1 else s.drops_
        consecutive_drops_ := consecutive
        max_consecutive_drops_ :=
          if dropCond then max s.max_consecutive_drops_ consecutive
          else s.max_consecutive_drops_
        timestamp_jump_detected_ :=
          if timestamp_jump ts s.last_timestamp_ 10000000 then true
          else s.timestamp_jump_detected_
        last_last_timestamp_ := s.last_timestamp_
        last_timestamp_ := ts }
  if consecutive > 10 then
    verifyStateEnd { s1 with too_many_dropped_packets_ := true }
      this_status.mode_ false .dropped_packets
  else
    let in_lockout : Bool := this_status.mode_ &&& MODE_SAFETY_LOCKOUT != 0
    let s2 := { s1 with in_lockout_ := in_lockout }
    if in_lockout && !s.resetting_ then
      verifyStateEnd s2 this_status.mode_ false .lockout
    else if s.fpga_internal_reset_detected_ then
      verifyStateEnd s2 this_status.mode_ false .fpga_reset
    else
      -- `state.is_enabled_` was set by `unpackState` from this status frame
      let is_enabled : Bool := this_status.mode_ &&& MODE_ENABLE != 0
      if is_enabled && env.motor_model_present &&
          !env.disable_motor_model_checking_ && !env.motor_model_verify_ok then
        verifyStateEnd s2 this_status.mode_ false .model_verify
      else
        verifyStateEnd s2 this_status.mode_ rv .none

/-- `WG0X::packCommand` : clears the error latch when `reset` is requested,
records `resetting_`, and computes the command mode byte
(`(enable && !halt && !has_error_) ? (MODE_ENABLE | MODE_CURRENT) : MODE_OFF`,
OR-ed with `MODE_SAFETY_RESET` when resetting).  The effort-to-current
conversion, clamping and quantization populate floating-point fields not
modelled here, and the calibration-offset hand-off touches only the
zero-offset double; no claim mentions either. -/
def packCommand (s : WG0XState) (enable halt reset : Bool) : WG0XState × Nat :=
  let s1 := if reset then clearErrorFlags s else s
  let s2 := { s1 with resetting_ := reset }
  let mode := if enable && !halt && !s2.has_error_ then MODE_ENABLE ||| MODE_CURRENT
              else MODE_OFF
  let mode := mode ||| (if reset then MODE_SAFETY_RESET else 0)
  (s2, mode)

/-- Feed a sequence of status frames through `verifyState`, collecting each
tick's boolean result. -/
def runVerify (env : MotorEnv) : WG0XState → List WG0XStatus → WG0XState × List Bool
  | s, [] => (s, [])
  | s, st :: rest =>
    let r := verifyState s st env
    let rec_result := runVerify env r.1 rest
    (rec_result.1, r.2.1 :: rec_result.2)

/-- `verifyState` latches `has_error_` : the new flag is the old one OR-ed
with this tick's failure (`has_error_ = is_error || has_error_`). -/
theorem verifyState_has_error_eq (s : WG0XState) (st : WG0XStatus) (env : MotorEnv) :
    (verifyState s st env).1.has_error_ =
      (!(verifyState s st env).2.1 || s.has_error_) := by
  simp only [verifyState, verifyStateEnd]
  split_ifs <;> simp

/-- A concrete device state carrying the sticky error latch (with an FPGA
internal reset pending, so `verifyState` fails on it). -/
def sampleErrorState : WG0XState :=
  { has_error_ := true, too_many_dropped_packets_ := false
    status_checksum_error_ := false, timestamp_jump_detected_ := false
    resetting_ := false, in_lockout_ := false
    fpga_internal_reset_detected_ := true, halted_ := false
    drops_ := 0, consecutive_drops_ := 0, max_consecutive_drops_ := 0
    last_timestamp_ := 0, last_last_timestamp_ := 0 }

/-- Collaborator outcomes with no motor model and no heating model attached. -/
def benignEnv : MotorEnv :=
  { motor_model_present := false, motor_heating_model_present := false
    heating_disable_halt_ := false, heating_has_overheated := false
    disable_motor_model_checking_ := false, motor_model_verify_ok := false }

/-- C1 — Sticky error latch: a failing `verifyState` tick sets `has_error_`
and the flag stays set across further ticks; while it is set, `packCommand`
with `reset = false` leaves it set and emits mode `MODE_OFF` (enable and
current bits cleared); only `packCommand` with `reset = true` clears the
latch, via `clearErrorFlags` before the mode is computed, so the emitted mode
is then independent of the previous error state. -/
theorem C1_sticky_error_latch (s : WG0XState) (st : WG0XStatus) (env : MotorEnv)
    (enable halt : Bool) :
    ((verifyState s st env).2.1 = false → (verifyState s st env).1.has_error_ = true)
    ∧ (s.has_error_ = true → (verifyState s st env).1.has_error_ = true)
    ∧ ((packCommand s enable halt false).1.has_error_ = s.has_error_)
    ∧ (s.has_error_ = true → (packCommand s enable halt false).2 = MODE_OFF)
    ∧ ((packCommand s enable halt true).1.has_error_ = false
       ∧ (packCommand s enable halt true).2 =
           ((if enable && !halt then MODE_ENABLE ||| MODE_CURRENT else MODE_OFF) |||
             MODE_SAFETY_RESET)) := by
  refine ⟨?_, ?_, ?_, ?_, ?_, ?_⟩
  · intro h; rw [verifyState_has_error_eq, h]; rfl
  · intro h; rw [verifyState_has_error_eq, h]; simp
  · simp [packCommand]
  · intro h; simp [packCommand, h, MODE_OFF]
  · simp [packCommand, clearErrorFlags]
  · simp [packCommand, clearErrorFlags]

/-- C1 witness: the latch behaviour evaluated on a concrete faulted state. -/
theorem C1_sticky_error_latch_witness :
    ((verifyState sampleErrorState ⟨0, 5000⟩ benignEnv).2.1 = false
      ∧ (verifyState sampleErrorState ⟨0, 5000⟩ benignEnv).1.has_error_ = true)
    ∧ (packCommand sampleErrorState true false false).2 = MODE_OFF
    ∧ (packCommand sampleErrorState true false true).1.has_error_ = false := by
  have h := C1_sticky_error_latch sampleErrorState ⟨0, 5000⟩ benignEnv true false
  exact ⟨⟨by decide, h.1 (by decide)⟩, h.2.2.2.1 (by decide), h.2.2.2.2.1⟩

/-- A concrete healthy device state whose last two seen timestamps are 0 and 1. -/
def sampleHealthyState : WG0XState :=
  { has_error_ := false, too_many_dropped_packets_ := false
    status_checksum_error_ := false, timestamp_jump_detected_ := false
    resetting_ := false, in_lockout_ := false
    fpga_internal_reset_detected_ := false, halted_ := false
    drops_ := 0, consecutive_drops_ := 0, max_consecutive_drops_ := 0
    last_timestamp_ := 0, last_last_timestamp_ := 1 }

/-- C4 — Verification precedence: a status frame carrying both the
safety-lockout mode bit and a timestamp jump greater than 10,000,000 µs, with
no reset in progress and no drop-streak failure (the frame repeats neither of
the last two timestamps), makes `verifyState` fail at the lockout check
(exit `.lockout`, `in_lockout_` set, drop latch untouched) while still
recording the sticky `timestamp_jump_detected_` flag; the same jump without
the lockout bit (device otherwise healthy, no models attached) only sets the
sticky flag and `verifyState` succeeds. -/
theorem C4_lockout_precedence (s : WG0XState) (st st' : WG0XStatus) (env : MotorEnv)
    (hlock : st.mode_ &&& MODE_SAFETY_LOCKOUT ≠ 0)
    (hreset : s.resetting_ = false)
    (hjump : timestamp_jump st.timestamp_ s.last_timestamp_ 10000000 = true)
    (hts1 : st.timestamp_ ≠ s.last_timestamp_)
    (hts2 : st.timestamp_ ≠ s.last_last_timestamp_) :
    ((verifyState s st env).2.1 = false
     ∧ (verifyState s st env).2.2 = VerifyExit.lockout
     ∧ (verifyState s st env).1.timestamp_jump_detected_ = true
     ∧ (verifyState s st env).1.in_lockout_ = true
     ∧ (verifyState s st env).1.too_many_dropped_packets_ = s.too_many_dropped_packets_)
    ∧ (st'.mode_ &&& MODE_SAFETY_LOCKOUT = 0 → st'.timestamp_ = st.timestamp_ →
       s.fpga_internal_reset_detected_ = false →
       env.motor_heating_model_present = false → env.motor_model_present = false →
       ((verifyState s st' env).2.1 = true
        ∧ (verifyState s st' env).2.2 = VerifyExit.none
        ∧ (verifyState s st' env).1.timestamp_jump_detected_ = true)) := by
  constructor
  · simp [verifyState, verifyStateEnd, hlock, hreset, hjump, hts1, hts2]
  · intro h1 h2 h3 h4 h5
    obtain ⟨m', t'⟩ := st'
    simp only at h1 h2
    subst h2
    simp [verifyState, verifyStateEnd, h1, h3, h4, h5, hjump, hts1, hts2]

/-- C4 witness: lockout + jump frame on a concrete healthy state, then the
same frame with the lockout bit cleared. -/
theorem C4_lockout_precedence_witness :
    ((verifyState sampleHealthyState ⟨MODE_SAFETY_LOCKOUT, 20000000⟩ benignEnv).2.1 = false
     ∧ (verifyState sampleHealthyState ⟨MODE_SAFETY_LOCKOUT, 20000000⟩ benignEnv).2.2 =
         VerifyExit.lockout)
    ∧ ((verifyState sampleHealthyState ⟨0, 20000000⟩ benignEnv).2.1 = true
       ∧ (verifyState sampleHealthyState ⟨0, 20000000⟩ benignEnv).1.timestamp_jump_detected_ =
           true) := by
  have h := C4_lockout_precedence sampleHealthyState
    ⟨MODE_SAFETY_LOCKOUT, 20000000⟩ ⟨0, 20000000⟩ benignEnv
    (by decide) (by decide) (by decide) (by decide) (by decide)
  have h2 := h.2 (by decide) (by decide) (by decide) (by decide) (by decide)
  exact ⟨⟨h.1.1, h.1.2.1⟩, h2.1, h2.2.2⟩

/-- A concrete healthy state whose previous status frame carried timestamp
1000 (`last_timestamp_ = 1000`). -/
def dropScenarioState : WG0XState :=
  { has_error_ := false, too_many_dropped_packets_ := false
    status_checksum_error_ := false, timestamp_jump_detected_ := false
    resetting_ := false, in_lockout_ := false
    fpga_internal_reset_detected_ := false, halted_ := false
    drops_ := 0, consecutive_drops_ := 0, max_consecutive_drops_ := 0
    last_timestamp_ := 1000, last_last_timestamp_ := 2000 }

set_option maxHeartbeats 1600000 in
/-- C5 — Consecutive-drop counting: `verifyState` counts a drop exactly when
the frame's timestamp equals one of the last two seen timestamps (incrementing
the streak, resetting it otherwise), latches `too_many_dropped_packets_`
exactly when the updated streak exceeds 10, and fails with the
`dropped_packets` exit in that case; concretely, 11 frames each repeating the
prior frame's timestamp succeed for 10 evaluations and set the latch (and
fail) on the 11th. -/
theorem C5_consecutive_drop_counting (s : WG0XState) (st : WG0XStatus) (env : MotorEnv) :
    ((st.timestamp_ = s.last_timestamp_ ∨ st.timestamp_ = s.last_last_timestamp_) →
      ((verifyState s st env).1.consecutive_drops_ = s.consecutive_drops_ + 1
       ∧ (verifyState s st env).1.drops_ = s.drops_ + 1))
    ∧ ((st.timestamp_ ≠ s.last_timestamp_ ∧ st.timestamp_ ≠ s.last_last_timestamp_) →
      ((verifyState s st env).1.consecutive_drops_ = 0
       ∧ (verifyState s st env).1.drops_ = s.drops_))
    ∧ ((verifyState s st env).1.too_many_dropped_packets_ =
        (s.too_many_dropped_packets_ ||
          ((st.timestamp_ == s.last_timestamp_ || st.timestamp_ == s.last_last_timestamp_)
            && decide (s.consecutive_drops_ + 1 > 10))))
    ∧ ((st.timestamp_ = s.last_timestamp_ ∨ st.timestamp_ = s.last_last_timestamp_) →
        s.consecutive_drops_ + 1 > 10 →
        ((verifyState s st env).2.1 = false
         ∧ (verifyState s st env).2.2 = VerifyExit.dropped_packets))
    ∧ ((runVerify benignEnv dropScenarioState
          (List.replicate 10 ⟨0, 1000⟩)).1.too_many_dropped_packets_ = false
       ∧ (runVerify benignEnv dropScenarioState
            (List.replicate 10 ⟨0, 1000⟩)).2 = List.replicate 10 true
       ∧ (runVerify benignEnv dropScenarioState
            (List.replicate 11 ⟨0, 1000⟩)).1.too_many_dropped_packets_ = true
       ∧ (runVerify benignEnv dropScenarioState
            (List.replicate 11 ⟨0, 1000⟩)).2 = List.replicate 10 true ++ [false]) := by
  have hb : ∀ (h : st.timestamp_ = s.last_timestamp_ ∨ st.timestamp_ = s.last_last_timestamp_),
      (st.timestamp_ == s.last_timestamp_ || st.timestamp_ == s.last_last_timestamp_) = true := by
    intro h; rcases h with h | h <;> simp [h]
  refine ⟨?_, ?_, ?_, ?_, by decide⟩
  · intro h
    simp only [verifyState, verifyStateEnd, hb h]
    split_ifs <;> simp
  · rintro ⟨h1, h2⟩
    have hbf : (st.timestamp_ == s.last_timestamp_ ||
        st.timestamp_ == s.last_last_timestamp_) = false := by
      simp [h1, h2]
    simp only [verifyState, verifyStateEnd, hbf]
    split_ifs <;> simp_all
  · by_cases hd : st.timestamp_ = s.last_timestamp_ ∨ st.timestamp_ = s.last_last_timestamp_
    · by_cases hn : s.consecutive_drops_ + 1 > 10
      · simp only [verifyState, verifyStateEnd, hb hd]
        simp [hn]
      · simp only [verifyState, verifyStateEnd, hb hd]
        simp only [if_true, hn, if_false, decide_eq_true_eq]
        split_ifs <;> simp_all
    · push_neg at hd
      have hbf : (st.timestamp_ == s.last_timestamp_ ||
          st.timestamp_ == s.last_last_timestamp_) = false := by
        simp [hd.1, hd.2]
      simp only [verifyState, verifyStateEnd, hbf]
      split_ifs <;> simp_all
  · intro hd hn
    simp only [verifyState, verifyStateEnd, hb hd]
    simp [hn]

/-- C5 witness: the drop-counting step evaluated on a concrete duplicated
timestamp. -/
theorem C5_consecutive_drop_counting_witness :
    (verifyState dropScenarioState ⟨0, 1000⟩ benignEnv).1.consecutive_drops_ = 1
    ∧ (verifyState dropScenarioState ⟨0, 1000⟩ benignEnv).1.drops_ = 1 := by
  have h := (C5_consecutive_drop_counting dropScenarioState ⟨0, 1000⟩ benignEnv).1
    (by decide)
  exact ⟨h.1, h.2⟩

/-! ## Mailbox Engine : write transaction (`writeMailbox_`,
`waitForWriteMailboxReady`) and read transaction (`readMailboxInternal`,
`readMailboxRepeatRequest`) -/

/-- `WG0X::waitForWriteMailboxReady` : polls bit 3 of the command-mailbox
sync-manager status register until it reads clear (mailbox empty).  Each list
entry is one poll of the external transport: `some status` is a successful
`readData` returning the status byte, `none` a failed read (which only fails
to count towards `good_results`).  The 100 ms / 100 µs wall-clock budget
bounds how many polls happen, so the end of the list is the timeout (a
`clock_gettime` failure also ends the wait with `false`).  Returns `true`
exactly when some poll inside the budget observes the mailbox empty. -/
def waitForWriteMailboxReady : List (Option Nat) → Bool
  | [] => false
  | some status :: rest =>
    if status &&& (1 <<< 3) == 0 then true else waitForWriteMailboxReady rest
  | none :: rest => waitForWriteMailboxReady rest

/-- `WG0X::writeMailbox_` : build a `LOCAL_BUS_WRITE` mailbox command, write
it to the command mailbox via `writeMailboxInternal` (whose transport outcome
is the oracle `writeInternalOk`), then wait for the device to empty the
command mailbox.  Mirrors the source exactly: the result of
`waitForWriteMailboxReady` is only logged — the function returns 0 even when
that wait times out. -/
def writeMailbox_ (stateOk : Bool) (address length seqnum : Nat)
    (data : Option (List Nat)) (writeInternalOk : Bool)
    (polls : List (Option Nat)) : Int :=
  if !stateOk then -1
  else
    match WG0XMbxCmd.build address length .LOCAL_BUS_WRITE seqnum data with
    | none => -1
    | some _cmd =>
      if !writeInternalOk then -1
      else
        -- source: `if (!waitForWriteMailboxReady(com)) { fprintf(...); }`
        -- the failure is printed but not returned
        let _wait := waitForWriteMailboxReady polls
        0

/-- `WG0X::writeMailbox` : take the mailbox lock, run `writeMailbox_`, count
errors, unlock.  A failed lock acquisition returns -1. -/
def writeMailbox (lockOk stateOk : Bool) (address length seqnum : Nat)
    (data : Option (List Nat)) (writeInternalOk : Bool)
    (polls : List (Option Nat)) : Int :=
  if !lockOk then -1
  else writeMailbox_ stateOk address length seqnum data writeInternalOk polls

/-- C2 counterexample: a write transaction in which every step up to the wait
succeeds but the command mailbox is never observed empty (all polls return
status byte `0x08`, busy bit set, until the 100 ms budget ends).
`waitForWriteMailboxReady` reports the timeout, yet `writeMailbox_` (and
`writeMailbox`) return 0, not a nonzero failure result. -/
theorem C2_wait_timeout_counterexample :
    waitForWriteMailboxReady [some 0x08, some 0x08, some 0x08] = false
    ∧ writeMailbox_ true 0x100 4 1 (some [1, 2, 3, 4]) true
        [some 0x08, some 0x08, some 0x08] = 0
    ∧ writeMailbox true true 0x100 4 1 (some [1, 2, 3, 4]) true
        [some 0x08, some 0x08, some 0x08] = 0 := by
  refine ⟨rfl, ?_, ?_⟩ <;> decide

/-- C2 (amended) — `writeMailbox_` succeeds (returns 0) exactly when the
device state check, the command build and the `writeMailboxInternal` transfer
succeed; the subsequent wait for the command mailbox to empty does not affect
the result: on timeout the failure is only logged, and the return value is
independent of the poll outcomes. -/
theorem C2_write_wait_ignored (stateOk : Bool) (address length seqnum : Nat)
    (data : Option (List Nat)) (writeInternalOk : Bool)
    (polls : List (Option Nat)) :
    (writeMailbox_ stateOk address length seqnum data writeInternalOk polls = 0 ↔
      (stateOk = true ∧ length ≤ MBX_DATA_SIZE ∧ writeInternalOk = true))
    ∧ writeMailbox_ stateOk address length seqnum data writeInternalOk polls =
        writeMailbox_ stateOk address length seqnum data writeInternalOk [] := by
  constructor
  · cases stateOk <;> cases writeInternalOk <;>
      simp only [writeMailbox_, WG0XMbxCmd.build, WG0XMbxHdr.build] <;>
      split_ifs <;> simp_all
  · cases stateOk
    · rfl
    · simp only [writeMailbox_, WG0XMbxCmd.build, WG0XMbxHdr.build]

/-- Transport outcome of one attempt of the `readMailboxInternal` retry loop:
`dropped` is the number of `txandrx_once` failures in that attempt's send loop
(from 0 up to `MAX_DROPPED = 10`), `wkc_start` / `wkc_end` the working
counters reported on the two read telegrams, and `repeat_ok` the result of
`readMailboxRepeatRequest` if one is issued after this attempt. -/
structure ReadAttempt where
  dropped : Nat
  wkc_start : Nat
  wkc_end : Nat
  repeat_ok : Bool
deriving DecidableEq

/-- Result of `readMailboxInternal`, instrumented with how many attempts the
loop made and how many repeat requests it issued. -/
structure ReadMbxResult where
  success : Bool
  attempts : Nat
  repeats : Nat
deriving DecidableEq

/-- `readMailboxInternal` loop limit (`MAX_TRIES`). -/
def MAX_TRIES : Nat := 10

/-- The `for (tries ...)` loop body of `WG0X::readMailboxInternal`, one
constructor case per exit of the source loop: inconsistent split-read working
counters fail; working counter 0 with zero drops in the attempt is a hard
failure with no repeat request; working counter 0 after at least one drop
issues a repeat request and—if it succeeds—retries; working counter 1 is
success; any other working counter fails.  Running out of `fuel` is the
`tries >= MAX_TRIES` exit. -/
def readMailboxLoop (env : Nat → ReadAttempt) (split_read : Bool) :
    Nat → Nat → Nat → ReadMbxResult
  | 0, idx, repeats => ⟨false, idx, repeats⟩
  | fuel + 1, idx, repeats =>
    let a := env idx
    if split_read && (a.wkc_start != a.wkc_end) then ⟨false, idx + 1, repeats⟩
    else if a.wkc_start == 0 then
      if a.dropped == 0 then ⟨false, idx + 1, repeats⟩
      else if a.repeat_ok then readMailboxLoop env split_read fuel (idx + 1) (repeats + 1)
      else ⟨false, idx + 1, repeats + 1⟩
    else if a.wkc_start == 1 then ⟨true, idx + 1, repeats⟩
    else ⟨false, idx + 1, repeats⟩

/-- `WG0X::readMailboxInternal` : guard the length against the status mailbox
size and the device fieldbus state, choose split reads when they save
bandwidth, then run the retry loop up to `MAX_TRIES` times. -/
def readMailboxInternal (stateOk : Bool) (length : Nat) (env : Nat → ReadAttempt) :
    ReadMbxResult :=
  if length > MBX_STATUS_SIZE then ⟨false, 0, 0⟩
  else if !stateOk then ⟨false, 0, 0⟩
  else readMailboxLoop env (length + 50 < MBX_STATUS_SIZE) MAX_TRIES 0 0

theorem readMailboxLoop_repeats_mono (env : Nat → ReadAttempt) (split : Bool) :
    ∀ fuel idx repeats, repeats ≤ (readMailboxLoop env split fuel idx repeats).repeats := by
  intro fuel
  induction fuel with
  | zero => intro idx repeats; exact Nat.le_refl _
  | succ n ih =>
    intro idx repeats
    simp only [readMailboxLoop]
    split_ifs <;> first
      | exact Nat.le_refl _
      | exact Nat.le_succ _
      | exact Nat.le_trans (Nat.le_succ _) (ih (idx + 1) (repeats + 1))

theorem readMailboxLoop_attempts_succ (env : Nat → ReadAttempt) (split : Bool) :
    ∀ fuel idx repeats, idx + 1 ≤ (readMailboxLoop env split (fuel + 1) idx repeats).attempts := by
  intro fuel
  induction fuel with
  | zero =>
    intro idx repeats
    rw [readMailboxLoop]
    split_ifs <;> exact Nat.le_refl _
  | succ n ih =>
    intro idx repeats
    rw [readMailboxLoop]
    split_ifs <;> first
      | exact Nat.le_refl _
      | exact Nat.le_of_succ_le (ih (idx + 1) (repeats + 1))

theorem readMailboxInternal_eq_loop (length : Nat) (env : Nat → ReadAttempt)
    (h : length ≤ MBX_STATUS_SIZE) :
    readMailboxInternal true length env =
      readMailboxLoop env (length + 50 < MBX_STATUS_SIZE) MAX_TRIES 0 0 := by
  simp [readMailboxInternal, Nat.not_lt.mpr h]

/-- Behaviour of one loop iteration on a working counter of 0. -/
theorem readMailboxLoop_wkc0 (env : Nat → ReadAttempt) (split : Bool)
    (fuel idx repeats : Nat)
    (hw : (env idx).wkc_start = 0) (hc : (env idx).wkc_end = 0) :
    ((env idx).dropped = 0 →
      readMailboxLoop env split (fuel + 1) idx repeats = ⟨false, idx + 1, repeats⟩)
    ∧ ((env idx).dropped ≠ 0 → (env idx).repeat_ok = true →
      readMailboxLoop env split (fuel + 1) idx repeats =
        readMailboxLoop env split fuel (idx + 1) (repeats + 1))
    ∧ ((env idx).dropped ≠ 0 → (env idx).repeat_ok = false →
      readMailboxLoop env split (fuel + 1) idx repeats = ⟨false, idx + 1, repeats + 1⟩) := by
  refine ⟨?_, ?_, ?_⟩
  · intro hd
    simp [readMailboxLoop, hw, hc, hd]
  · intro hd hr
    simp [readMailboxLoop, hw, hc, hd, hr]
  · intro hd hr
    simp [readMailboxLoop, hw, hc, hd, hr]

/-- C6 — Working-counter-0 handling in `readMailboxInternal` : when the first
attempt reads working counter 0 with zero packets dropped during the attempt,
the read fails immediately — one attempt, no repeat request, no retry; when
the same working counter 0 follows at least one dropped packet, a repeat
request is issued, and if it is acknowledged the read is attempted again. -/
theorem C6_wkc_zero_handling (length : Nat) (env : Nat → ReadAttempt)
    (hlen : length ≤ MBX_STATUS_SIZE)
    (hw : (env 0).wkc_start = 0)
    (hc : (env 0).wkc_end = 0) :
    ((env 0).dropped = 0 →
      readMailboxInternal true length env = ⟨false, 1, 0⟩)
    ∧ ((env 0).dropped ≠ 0 →
      (1 ≤ (readMailboxInternal true length env).repeats
       ∧ ((env 0).repeat_ok = true →
           2 ≤ (readMailboxInternal true length env).attempts))) := by
  rw [readMailboxInternal_eq_loop length env hlen]
  have hMT : MAX_TRIES = 9 + 1 := rfl
  rw [hMT]
  have hstep := readMailboxLoop_wkc0 env (length + 50 < MBX_STATUS_SIZE) 9 0 0 hw hc
  constructor
  · intro hd
    exact hstep.1 hd
  · intro hd
    constructor
    · cases hr : (env 0).repeat_ok with
      | true =>
        rw [hstep.2.1 hd hr]
        exact readMailboxLoop_repeats_mono env _ 9 1 1
      | false =>
        rw [hstep.2.2 hd hr]
    · intro hr
      rw [hstep.2.1 hd hr]
      exact readMailboxLoop_attempts_succ env _ 8 1 1

/-- C6 witness: hard failure on a concrete attempt with working counter 0 and
no drops, and retry on a concrete attempt with one drop. -/
theorem C6_wkc_zero_handling_witness :
    readMailboxInternal true 8 (fun _ => ⟨0, 0, 0, false⟩) = ⟨false, 1, 0⟩
    ∧ 1 ≤ (readMailboxInternal true 8 (fun i => if i = 0 then ⟨1, 0, 0, true⟩
            else ⟨0, 1, 1, false⟩)).repeats
    ∧ 2 ≤ (readMailboxInternal true 8 (fun i => if i = 0 then ⟨1, 0, 0, true⟩
            else ⟨0, 1, 1, false⟩)).attempts := by
  have h1 := C6_wkc_zero_handling 8 (fun _ => ⟨0, 0, 0, false⟩)
    (by decide) rfl rfl
  have h2 := C6_wkc_zero_handling 8
    (fun i => if i = 0 then ⟨1, 0, 0, true⟩ else ⟨0, 1, 1, false⟩)
    (by decide) rfl rfl
  exact ⟨h1.1 rfl, (h2.2 (by decide)).1, (h2.2 (by decide)).2 rfl⟩

/-- C3 — Frame-builder checksum invariant: every header produced by
`WG0XMbxHdr::build` folds to 0 over all of its bytes (trailing checksum byte
included), and every command produced by `WG0XMbxCmd::build` with payload
length `L` folds to 0 over its `L` data bytes plus the appended checksum
byte. -/
theorem C3_frame_builder_checksums (address length : Nat) (type : MbxCmdType)
    (seqnum : Nat) (data : Option (List Nat)) (hdr : WG0XMbxHdr) (cmd : WG0XMbxCmd)
    (hh : WG0XMbxHdr.build address length type seqnum = some hdr)
    (hc : WG0XMbxCmd.build address length type seqnum data = some cmd) :
    computeChecksum hdr.bytes = 0
    ∧ computeChecksum cmd.data_ = 0
    ∧ cmd.data_.length = length + 1 := by
  rw [WG0XMbxCmd.build.eq_def, hh] at hc
  cases hc
  refine ⟨WG0XMbxHdr.build_checksum_bytes _ _ _ _ _ hh,
    computeChecksum_append_rotate _, ?_⟩
  cases data <;> simp [List.length_take]
  omega

/-- C3 witness: a concrete header and command built for a 4-byte local-bus
write both fold to zero. -/
theorem C3_frame_builder_checksums_witness :
    ∃ hdr cmd, WG0XMbxHdr.build 16 4 .LOCAL_BUS_WRITE 2 = some hdr
      ∧ WG0XMbxCmd.build 16 4 .LOCAL_BUS_WRITE 2 (some [1, 2, 3, 4]) = some cmd
      ∧ computeChecksum hdr.bytes = 0 ∧ computeChecksum cmd.data_ = 0 := by
  obtain ⟨h1, h2, -⟩ := C3_frame_builder_checksums 16 4 .LOCAL_BUS_WRITE 2
    (some [1, 2, 3, 4]) _ _ rfl rfl
  exact ⟨_, _, rfl, rfl, h1, h2⟩

/-- C10 — `WG0XMbxHdr::verifyChecksum` returns `true` exactly when the fold
over the whole header (checksum byte included) is nonzero; on a freshly built
header, whose fold is zero, it therefore returns `false` — the boolean is the
negation of checksum validity. -/
theorem C10_verifyChecksum_negated (h : WG0XMbxHdr) (address length seqnum : Nat)
    (type : MbxCmdType) (hdr : WG0XMbxHdr)
    (hb : WG0XMbxHdr.build address length type seqnum = some hdr) :
    (WG0XMbxHdr.verifyChecksum h = true ↔ computeChecksum h.bytes ≠ 0)
    ∧ WG0XMbxHdr.verifyChecksum hdr = false := by
  constructor
  · simp [WG0XMbxHdr.verifyChecksum]
  · simp [WG0XMbxHdr.verifyChecksum, WG0XMbxHdr.build_checksum_bytes _ _ _ _ _ hb]

/-- C10 witness: a concretely built read header fails `verifyChecksum`
(i.e. it is reported "invalid" by the inverted predicate). -/
theorem C10_verifyChecksum_negated_witness :
    ∃ hdr, WG0XMbxHdr.build 16 4 .LOCAL_BUS_READ 3 = some hdr
      ∧ WG0XMbxHdr.verifyChecksum hdr = false := by
  obtain ⟨-, h2⟩ := C10_verifyChecksum_negated ⟨0, 0, 0, 0, 0⟩ 16 4 3 .LOCAL_BUS_READ _ rfl
  exact ⟨_, rfl, h2⟩

/-! ## SPI EEPROM Engine : `readEepromPage` -/

/-- `MAX_EEPROM_PAGE_SIZE` : EEPROM pages are at most 264 bytes
(`sizeof(WG0XActuatorInfo) == 264`, asserted in the source). -/
def MAX_EEPROM_PAGE_SIZE : Nat := 264

/-- Modelled from the spec: number of EEPROM pages; `readEepromPage`'s doc
comment gives the valid page range as 0 to 4095. -/
def NUM_EEPROM_PAGES : Nat := 4096

/-- The sequence of device operations `readEepromPage` performs, in order:
clear the caller's buffer, mailbox-write `spi_buffer_write` to
`SPI_BUFFER_ADDR`, send the SPI read command for `read_page`, then
mailbox-read `read_length` bytes back from `SPI_BUFFER_ADDR`. -/
structure EepromReadPlan where
  caller_buffer_cleared : List Nat
  spi_buffer_write : List Nat
  read_page : Nat
  read_length : Nat
deriving DecidableEq

/-- `WG0X::readEepromPage` : validates `length` and `page`, `memset`s the
caller's buffer to zero, then — quoting the source verbatim — performs
`writeMailbox(com, WG0XSpiEepromCmd::SPI_BUFFER_ADDR, &actuator_info_,
sizeof(actuator_info_))` : the bytes written to the device's SPI scratch
buffer are the 264 bytes of the `actuator_info_` member, NOT the zeroed
buffer, despite the preceding comment "zero out FPGA buffer before asking
for eeprom data".  `actuator_info_bytes` is that member's current contents.
The transport outcomes of the three mailbox operations do not affect which
bytes are written, so the plan is returned unconditionally once the guards
pass. -/
def readEepromPage (actuator_info_bytes : List Nat) (page length : Nat) :
    Option EepromReadPlan :=
  if length > MAX_EEPROM_PAGE_SIZE then none
  else if page ≥ NUM_EEPROM_PAGES then none
  else some
    { caller_buffer_cleared := List.replicate length 0
      spi_buffer_write := actuator_info_bytes
      read_page := page
      read_length := length }

/-- C7 — the claim (the SPI scratch buffer is zeroed before the SPI read
command) evaluated at a failing input: with the `actuator_info_` member
holding any nonzero byte (here a concrete 264-byte record whose first byte is
1), the bytes `readEepromPage` writes to the SPI buffer address are that
member's bytes, not zeros — while the caller's local buffer IS zeroed, the
mailbox write preceding the SPI read command sends `actuator_info_`.  This
contradicts both the spec and the source's own comment. -/
theorem C7_spi_buffer_not_zeroed :
    readEepromPage (1 :: List.replicate 263 0) 0 264 = some
      { caller_buffer_cleared := List.replicate 264 0
        spi_buffer_write := 1 :: List.replicate 263 0
        read_page := 0
        read_length := 264 }
    ∧ (1 :: List.replicate 263 0) ≠ List.replicate 264 0 := by
  exact ⟨rfl, by decide⟩

/-! ## Diagnostics Aggregator : `WG0XDiagnostics::update`,
`WG0X::collectDiagnostics` -/

/-- `WG0XSafetyDisableStatus` : live safety-disable register block read over
the mailbox (status byte, held status byte, 8-bit event counter). -/
structure WG0XSafetyDisableStatus where
  safety_disable_status_ : Nat
  safety_disable_status_hold_ : Nat
  safety_disable_count_ : Nat
deriving DecidableEq

/-- `WG0XSafetyDisableCounters` : the six 8-bit safety-disable sub-reason
counters inside the diagnostics info block. -/
structure WG0XSafetyDisableCounters where
  undervoltage_count_ : Nat
  over_current_count_ : Nat
  board_over_temp_count_ : Nat
  bridge_over_temp_count_ : Nat
  operate_disable_count_ : Nat
  watchdog_disable_count_ : Nat
deriving DecidableEq

/-- `WG0XDiagnosticsInfo` : device diagnostics info block; only the
safety-disable counters are consumed by `WG0XDiagnostics::update`. -/
structure WG0XDiagnosticsInfo where
  safety_disable_counters_ : WG0XSafetyDisableCounters
deriving DecidableEq

/-- `WG0XDiagnostics` : lifetime diagnostic totals plus the cached raw
snapshot of the last read counters.  The floating-point zero-offset members
are omitted (no claim mentions them). -/
structure WG0XDiagnostics where
  first_ : Bool
  valid_ : Bool
  safety_disable_total_ : Nat
  undervoltage_total_ : Nat
  over_current_total_ : Nat
  board_over_temp_total_ : Nat
  bridge_over_temp_total_ : Nat
  operate_disable_total_ : Nat
  watchdog_disable_total_ : Nat
  lock_errors_ : Nat
  checksum_errors_ : Nat
  safety_disable_status_ : WG0XSafetyDisableStatus
  diagnostics_info_ : WG0XDiagnosticsInfo
deriving DecidableEq

/-- The C expression `0xFF & ((uint32_t)(new_counter - old_counter))` for
8-bit counter values: the promoted subtraction truncated to 32 bits, then
masked to the low byte. -/
def counterDelta (old new : Nat) : Nat :=
  ((new + 2 ^ 32 - old) % 2 ^ 32) &&& 0xFF

/-- 32-bit accumulation `total += delta` on a `uint32_t` total. -/
def u32add (total delta : Nat) : Nat := (total + delta) % 2 ^ 32

/-- `WG0XDiagnostics::update` : clears `first_`, adds the wrap-aware 8-bit
delta of every tracked counter to its 32-bit lifetime total, then replaces
the cached raw snapshot with the newly collected values. -/
def WG0XDiagnostics.update (d : WG0XDiagnostics)
    (new_status : WG0XSafetyDisableStatus)
    (new_diagnostics_info : WG0XDiagnosticsInfo) : WG0XDiagnostics :=
  let new_counters := new_diagnostics_info.safety_disable_counters_
  let old_counters := d.diagnostics_info_.safety_disable_counters_
  { d with
      first_ := false
      safety_disable_total_ := u32add d.safety_disable_total_
        (counterDelta d.safety_disable_status_.safety_disable_count_
          new_status.safety_disable_count_)
      undervoltage_total_ := u32add d.undervoltage_total_
        (counterDelta old_counters.undervoltage_count_ new_counters.undervoltage_count_)
      over_current_total_ := u32add d.over_current_total_
        (counterDelta old_counters.over_current_count_ new_counters.over_current_count_)
      board_over_temp_total_ := u32add d.board_over_temp_total_
        (counterDelta old_counters.board_over_temp_count_
          new_counters.board_over_temp_count_)
      bridge_over_temp_total_ := u32add d.bridge_over_temp_total_
        (counterDelta old_counters.bridge_over_temp_count_
          new_counters.bridge_over_temp_count_)
      operate_disable_total_ := u32add d.operate_disable_total_
        (counterDelta old_counters.operate_disable_count_
          new_counters.operate_disable_count_)
      watchdog_disable_total_ := u32add d.watchdog_disable_total_
        (counterDelta old_counters.watchdog_disable_count_
          new_counters.watchdog_disable_count_)
      safety_disable_status_ := new_status
      diagnostics_info_ := new_diagnostics_info }

/-- C8 — Wrap-aware counter accumulation: for 8-bit counter values
(old, new < 256) the C delta `0xFF & (uint32_t)(new - old)` equals
`(new - old) mod 256`; in particular `delta(old=250, new=3) = 9`; and each
`WG0XDiagnostics::update` call adds exactly that delta to the corresponding
32-bit lifetime total for every tracked counter. -/
theorem C8_counter_delta_mod256 (d : WG0XDiagnostics)
    (ns : WG0XSafetyDisableStatus) (ndi : WG0XDiagnosticsInfo) (old new : Nat)
    (h1 : old < 256) (h2 : new < 256) :
    counterDelta old new = (new + 256 - old) % 256
    ∧ counterDelta 250 3 = 9
    ∧ ((d.update ns ndi).safety_disable_total_ =
        u32add d.safety_disable_total_
          (counterDelta d.safety_disable_status_.safety_disable_count_
            ns.safety_disable_count_)
       ∧ (d.update ns ndi).undervoltage_total_ =
          u32add d.undervoltage_total_
            (counterDelta d.diagnostics_info_.safety_disable_counters_.undervoltage_count_
              ndi.safety_disable_counters_.undervoltage_count_)
       ∧ (d.update ns ndi).over_current_total_ =
          u32add d.over_current_total_
            (counterDelta d.diagnostics_info_.safety_disable_counters_.over_current_count_
              ndi.safety_disable_counters_.over_current_count_)
       ∧ (d.update ns ndi).board_over_temp_total_ =
          u32add d.board_over_temp_total_
            (counterDelta d.diagnostics_info_.safety_disable_counters_.board_over_temp_count_
              ndi.safety_disable_counters_.board_over_temp_count_)
       ∧ (d.update ns ndi).bridge_over_temp_total_ =
          u32add d.bridge_over_temp_total_
            (counterDelta d.diagnostics_info_.safety_disable_counters_.bridge_over_temp_count_
              ndi.safety_disable_counters_.bridge_over_temp_count_)
       ∧ (d.update ns ndi).operate_disable_total_ =
          u32add d.operate_disable_total_
            (counterDelta d.diagnostics_info_.safety_disable_counters_.operate_disable_count_
              ndi.safety_disable_counters_.operate_disable_count_)
       ∧ (d.update ns ndi).watchdog_disable_total_ =
          u32add d.watchdog_disable_total_
            (counterDelta d.diagnostics_info_.safety_disable_counters_.watchdog_disable_count_
              ndi.safety_disable_counters_.watchdog_disable_count_)) := by
  refine ⟨?_, by decide, rfl, rfl, rfl, rfl, rfl, rfl, rfl⟩
  rw [counterDelta, Nat.and_pow_two_sub_one_eq_mod _ 8]
  omega

/-- C8 witness: the wrap case 250 → 3 adds 9 to a concrete running total. -/
theorem C8_counter_delta_mod256_witness :
    counterDelta 250 3 = (3 + 256 - 250) % 256 ∧ counterDelta 250 3 = 9 := by
  have h := C8_counter_delta_mod256
    ⟨true, false, 0, 0, 0, 0, 0, 0, 0, 0, 0, ⟨0, 0, 0⟩, ⟨⟨0, 0, 0, 0, 0, 0⟩⟩⟩
    ⟨0, 0, 0⟩ ⟨⟨0, 0, 0, 0, 0, 0⟩⟩ 250 3 (by decide) (by decide)
  exact ⟨h.1, h.2.1⟩

/-- Transport and lock outcomes of one `WG0X::collectDiagnostics` poll:
`device_present` is the initial NPRD presence probe succeeding with working
counter 1; `read_status` / `read_info` are the two mailbox reads (`none` for
a nonzero, failed `readMailbox` result); `lock_ok` is the blocking
`lockWG0XDiagnostics` acquisition at the end. -/
structure CollectEnv where
  device_present : Bool
  read_status : Option WG0XSafetyDisableStatus
  read_info : Option WG0XDiagnosticsInfo
  lock_ok : Bool
deriving DecidableEq

/-- `WG0X::collectDiagnostics` : probe the device, mailbox-read the safety
disable status then the diagnostics info (`goto end` with `success = false`
on any failure), and at `end:` — without the lock, force `valid_ := false`
and `first_ := false` and return; with the lock, set `valid_ := success` and
call `update` (which replaces the cached snapshot) only when `success`.
The app-ram zero-offset write-back between the reads touches only
floating-point calibration state and cannot change `success`. -/
def collectDiagnostics (d : WG0XDiagnostics) (env : CollectEnv) : WG0XDiagnostics :=
  let collected : Option (WG0XSafetyDisableStatus × WG0XDiagnosticsInfo) :=
    if !env.device_present then none
    else match env.read_status with
      | none => none
      | some s =>
        match env.read_info with
        | none => none
        | some di => some (s, di)
  if !env.lock_ok then
    { d with valid_ := false, first_ := false }
  else
    match collected with
    | some (s, di) => WG0XDiagnostics.update { d with valid_ := true } s di
    | none => { d with valid_ := false }

/-- A concrete diagnostics record whose cached raw snapshot holds counter
value 7 (status) and 5s (info counters). -/
def sampleDiagState : WG0XDiagnostics :=
  { first_ := false, valid_ := true
    safety_disable_total_ := 100, undervoltage_total_ := 0
    over_current_total_ := 0, board_over_temp_total_ := 0
    bridge_over_temp_total_ := 0, operate_disable_total_ := 0
    watchdog_disable_total_ := 0, lock_errors_ := 0, checksum_errors_ := 0
    safety_disable_status_ := ⟨0, 0, 7⟩
    diagnostics_info_ := ⟨⟨5, 5, 5, 5, 5, 5⟩⟩ }

/-- A failed poll: the device is present and the safety-disable status was
freshly read as `⟨1, 2, 9⟩`, but the diagnostics-info mailbox read failed;
the diagnostics lock is acquired normally. -/
def sampleFailedPoll : CollectEnv :=
  { device_present := true, read_status := some ⟨1, 2, 9⟩
    read_info := none, lock_ok := true }

/-- C9 counterexample: after a failed poll, `collectDiagnostics` leaves the
cached raw snapshot at its old values (7 and 5s) even though a new status
value (9) was read during the attempt — the snapshot is NOT replaced
"whether or not the poll succeeded"; only `valid_` is updated. -/
theorem C9_snapshot_kept_on_failure_counterexample :
    (collectDiagnostics sampleDiagState sampleFailedPoll).safety_disable_status_ =
      sampleDiagState.safety_disable_status_
    ∧ (collectDiagnostics sampleDiagState sampleFailedPoll).diagnostics_info_ =
        sampleDiagState.diagnostics_info_
    ∧ sampleDiagState.safety_disable_status_ ≠ sampleFailedPoll.read_status.getD ⟨0, 0, 0⟩
    ∧ (collectDiagnostics sampleDiagState sampleFailedPoll).valid_ = false := by
  refine ⟨rfl, rfl, by decide, rfl⟩

/-- C9 (amended) — `collectDiagnostics` replaces the cached raw counter
snapshot (`safety_disable_status_` and `diagnostics_info_`) with the newly
read values only when the whole poll succeeded (device present, both mailbox
reads successful, diagnostics lock acquired); on any failure the snapshot is
left unchanged and only `valid_` / `first_` are updated, so the next delta is
computed relative to the last successfully read values. -/
theorem C9_snapshot_replaced_only_on_success (d : WG0XDiagnostics) (env : CollectEnv)
    (s : WG0XSafetyDisableStatus) (di : WG0XDiagnosticsInfo) :
    (env.lock_ok = true → env.device_present = true → env.read_status = some s →
      env.read_info = some di →
      ((collectDiagnostics d env).safety_disable_status_ = s
       ∧ (collectDiagnostics d env).diagnostics_info_ = di
       ∧ (collectDiagnostics d env).valid_ = true))
    ∧ ((env.device_present = false ∨ env.read_status = none ∨ env.read_info = none) →
      ((collectDiagnostics d env).safety_disable_status_ = d.safety_disable_status_
       ∧ (collectDiagnostics d env).diagnostics_info_ = d.diagnostics_info_
       ∧ (env.lock_ok = true → (collectDiagnostics d env).valid_ = false))) := by
  constructor
  · intro hl hp hs hi
    simp [collectDiagnostics, hl, hp, hs, hi, WG0XDiagnostics.update]
  · intro hfail
    cases hl : env.lock_ok with
    | false => simp [collectDiagnostics, hl]
    | true =>
      rcases hfail with hp | hs | hi
      · simp [collectDiagnostics, hl, hp]
      · simp [collectDiagnostics, hl, hs]
      · cases hs : env.read_status with
        | none => simp [collectDiagnostics, hl, hs]
        | some sv => simp [collectDiagnostics, hl, hs, hi]

/-- C9 amended-claim witness: a fully successful poll on the concrete record
replaces the snapshot; the concrete failed poll leaves it unchanged. -/
theorem C9_snapshot_replaced_only_on_success_witness :
    ((collectDiagnostics sampleDiagState
        ⟨true, some ⟨1, 2, 9⟩, some ⟨⟨6, 6, 6, 6, 6, 6⟩⟩, true⟩).safety_disable_status_ =
      ⟨1, 2, 9⟩
     ∧ (collectDiagnostics sampleDiagState
          ⟨true, some ⟨1, 2, 9⟩, some ⟨⟨6, 6, 6, 6, 6, 6⟩⟩, true⟩).diagnostics_info_ =
        ⟨⟨6, 6, 6, 6, 6, 6⟩⟩)
    ∧ (collectDiagnostics sampleDiagState sampleFailedPoll).diagnostics_info_ =
        sampleDiagState.diagnostics_info_ := by
  have h1 := (C9_snapshot_replaced_only_on_success sampleDiagState
    ⟨true, some ⟨1, 2, 9⟩, some ⟨⟨6, 6, 6, 6, 6, 6⟩⟩, true⟩ ⟨1, 2, 9⟩
    ⟨⟨6, 6, 6, 6, 6, 6⟩⟩).1 rfl rfl rfl rfl
  have h2 := (C9_snapshot_replaced_only_on_success sampleDiagState sampleFailedPoll
    ⟨0, 0, 0⟩ ⟨⟨0, 0, 0, 0, 0, 0⟩⟩).2 (Or.inr (Or.inr rfl))
  exact ⟨⟨h1.1, h1.2.1⟩, h2.2.1⟩

end WG0X
